import Mathlib

/-!
Verification development for TinyServer (src/src/tinyserver.c), a minimal
single-threaded TCP server that optionally wraps each accepted connection
in a TLS session, reads one bounded request, parses the first two
whitespace-delimited tokens, and writes one templated HTTP response before
tearing the connection down.

The embedding models bytes as characters (all wire content is ASCII, one
byte per character), the per-connection control flow of main (lines
246 to 345) as a pure function from the connection inputs to a list of
observable events, and the accept loop as a fold over a list of accept
outcomes.  OpenSSL calls are represented by their observable events; the
results of the fallible calls (handshake, read) are inputs of the model.
-/

namespace TinyServer

/-- BUFFER_SIZE from line 39 of tinyserver.c. -/
def BUFFER_SIZE : Nat := 4096

/-- Capacity of the method buffer, from `char method[16]` (lines 281 and 312). -/
def methodBufSize : Nat := 16

/-- Capacity of the url buffer, from `char url[256]` (lines 281 and 312). -/
def urlBufSize : Nat := 256

/-- The C constant EXIT_FAILURE used by exit on accept failure (line 254). -/
def EXIT_FAILURE : Nat := 1

/-- Initial value of the global flag `int use_tls = 1` (line 42), as a Bool. -/
def use_tls_default : Bool := true

/-- The argument-scanning loop of main (lines 160 to 166): walk the
arguments after the program name; on the first one equal to "--no-tls"
set use_tls to 0 and break.  The result is the final value of use_tls. -/
def parseUseTls : List String → Bool
  | [] => use_tls_default
  | a :: rest => if a = "--no-tls" then false else parseUseTls rest

/-- C `isspace` for the default locale: the characters the `%s` conversion
of sscanf treats as token separators. -/
def isCSpace (c : Char) : Bool :=
  c == ' ' || c == '\t' || c == '\n' || c == Char.ofNat 11 || c == Char.ofNat 12 || c == '\r'

/-- The portion of the request buffer that C string functions see: the
bytes before the first NUL terminator. -/
def cstr (buf : List Char) : List Char :=
  buf.takeWhile (fun c => !(c == Char.ofNat 0))

/-- First `%s` token of a C string: skip leading whitespace, then take the
maximal run of non-whitespace characters. -/
def token1 (s : List Char) : List Char :=
  (s.dropWhile isCSpace).takeWhile (fun c => !isCSpace c)

/-- What remains of the C string after the first `%s` token. -/
def rest1 (s : List Char) : List Char :=
  (s.dropWhile isCSpace).dropWhile (fun c => !isCSpace c)

/-- Second `%s` token of a C string. -/
def token2 (s : List Char) : List Char :=
  token1 (rest1 s)

/-- Model of `sscanf(request_buffer, "%s %s", method, url)` (lines 282 and
313): the two whitespace-delimited tokens the conversions match: `%s` has
no field width, so each matched token is stored in full.  A conversion
that matches nothing leaves its zero-initialised destination untouched,
which reads back as the empty token. -/
def sscanfTokens (buf : List Char) : List Char × List Char :=
  (token1 (cstr buf), token2 (cstr buf))

/-- Number of bytes an unbounded `%s` conversion stores into its
destination buffer: the matched token plus one NUL terminator, or nothing
at all when the conversion fails before matching. -/
def percentSBytesStored (tok : List Char) : Nat :=
  if tok = [] then 0 else tok.length + 1

/-- Whether parsing the request overflows `char url[256]`: the `%s`
conversion stores more bytes than the destination can hold. -/
def urlStoreOverflows (buf : List Char) : Bool :=
  urlBufSize < percentSBytesStored (sscanfTokens buf).2

/-- Whether parsing the request overflows `char method[16]`. -/
def methodStoreOverflows (buf : List Char) : Bool :=
  methodBufSize < percentSBytesStored (sscanfTokens buf).1

/-- The method string the response builder sees. -/
def parsedMethod (buf : List Char) : String :=
  String.mk (sscanfTokens buf).1

/-- The url string the response builder sees. -/
def parsedUrl (buf : List Char) : String :=
  String.mk (sscanfTokens buf).2

/-- The sprintf of html_content (lines 285 to 288 for TLS mode, 316 to 319
for plain mode): a fixed template with the parsed method and url
substituted verbatim. -/
def htmlContent (tls : Bool) (method url : String) : String :=
  if tls then
    "<!DOCTYPE html><html><head><title>Tiny SSL Server</title></head>" ++
    "<body><h1>Secure HTTPS Server!</h1><p>Method: " ++ method ++
    "</p><p>URL: " ++ url ++ "</p></body></html>"
  else
    "<!DOCTYPE html><html><head><title>Tiny HTTP Server</title></head>" ++
    "<body><h1>Plain HTTP Server!</h1><p>Method: " ++ method ++
    "</p><p>URL: " ++ url ++ "</p></body></html>"

/-- The sprintf of http_response (lines 291 to 293 and 322 to 324): the
status line, two headers with Content-Length printed from
strlen(html_content), a blank line, and the body. -/
def httpResponse (tls : Bool) (method url : String) : String :=
  "HTTP/1.1 200 OK\r\nContent-Type: text/html\r\nContent-Length: " ++
  toString (htmlContent tls method url).length ++ "\r\n\r\n" ++
  htmlContent tls method url

/-- Observable events of one connection, in program order. -/
inductive Event
  | sslNew
  | readReq (maxBytes : Nat) (returned : Int)
  | writeResp (data : String)
  | sslShutdown
  | sslFree
  | closeStream
deriving DecidableEq, Repr

def Event.isRead : Event → Bool
  | .readReq _ _ => true
  | _ => false

def Event.isWrite : Event → Bool
  | .writeResp _ => true
  | _ => false

def Event.isShutdown : Event → Bool
  | .sslShutdown => true
  | _ => false

def Event.isFree : Event → Bool
  | .sslFree => true
  | _ => false

def Event.isClose : Event → Bool
  | .closeStream => true
  | _ => false

/-- The maximum byte count of each read event in a trace. -/
def readCaps (es : List Event) : List Nat :=
  es.filterMap fun e => match e with
    | .readReq cap _ => some cap
    | _ => none

/-- The data of each write event in a trace. -/
def writeData (es : List Event) : List String :=
  es.filterMap fun e => match e with
    | .writeResp d => some d
    | _ => none

/-- Environment-determined outcomes of one accepted connection: the result
of SSL_accept (TLS mode only), the return value of SSL_read or read, and
the bytes placed in the request buffer when the read returned them. -/
structure ConnInput where
  handshakeOk : Bool
  readBytes : Int
  reqData : List Char
deriving DecidableEq, Repr

/-- The body of the accept loop for one connection (lines 257 to 342).
TLS mode: SSL_new and SSL_set_fd, then SSL_accept; on handshake failure
only the error is printed; on success SSL_read of at most
BUFFER_SIZE - 1 bytes, and, when the read returned more than zero bytes,
parse and SSL_write the response.  Cleanup (lines 336 to 342): in TLS
mode ssl is non-null, so SSL_shutdown and SSL_free run whether or not the
handshake succeeded; close(client) runs unconditionally.
Plain mode: read of at most BUFFER_SIZE - 1 bytes, the response write
when more than zero bytes arrived, and close(client). -/
def handleConn (tls : Bool) (inp : ConnInput) : List Event :=
  if tls then
    Event.sslNew ::
    (if inp.handshakeOk then
      Event.readReq (BUFFER_SIZE - 1) inp.readBytes ::
      (if inp.readBytes > 0 then
        [Event.writeResp (httpResponse true (parsedMethod inp.reqData) (parsedUrl inp.reqData))]
      else [])
    else [])
    ++ [Event.sslShutdown, Event.sslFree, Event.closeStream]
  else
    Event.readReq (BUFFER_SIZE - 1) inp.readBytes ::
    (if inp.readBytes > 0 then
      [Event.writeResp (httpResponse false (parsedMethod inp.reqData) (parsedUrl inp.reqData))]
    else [])
    ++ [Event.closeStream]

/-- The accept loop (lines 246 to 345) over a sequence of accept outcomes:
some inp is a successful accept with the outcomes inp for that connection;
none is a failed accept, on which the process calls exit(EXIT_FAILURE)
(lines 252 to 255).  Returns the per-connection traces of the handled
connections and the exit status (none while the loop would still run). -/
def runServer (tls : Bool) : List (Option ConnInput) → List (List Event) × Option Nat
  | [] => ([], none)
  | none :: _ => ([], some EXIT_FAILURE)
  | some inp :: rest =>
    let r := runServer tls rest
    (handleConn tls inp :: r.1, r.2)

/-- The concrete request of the overflow scenario: a 500-byte target. -/
def longTargetRequest : List Char :=
  "GET ".data ++ List.replicate 500 'a' ++ " HTTP/1.1".data

end TinyServer

namespace TinyServer

set_option maxRecDepth 10000 in
/-- Claim C1: the parse of the request line is claimed to truncate tokens
to their buffer bounds so that a 500-byte target cannot write past the
url buffer.  In the code the `%s` conversions of sscanf carry no field
width, so the full 500-byte token plus its NUL terminator, 501 bytes, is
stored into `char url[256]`: no truncation happens and the store
overflows the buffer. -/
theorem c1_long_target_overflows_url_buffer :
    (sscanfTokens longTargetRequest).2.length = 500
    ∧ percentSBytesStored (sscanfTokens longTargetRequest).2 = 501
    ∧ urlStoreOverflows longTargetRequest = true
    ∧ urlBufSize = 256 := by
  decide

/-- Claim C2, counterexample: on a TLS connection whose handshake failed,
the session was never successfully begun, yet the cleanup still invokes
SSL_shutdown and SSL_free, because the cleanup condition at line 336
tests only that the ssl object exists, not that its handshake
succeeded. -/
theorem c2_end_without_established_session :
    (⟨false, 0, []⟩ : ConnInput).handshakeOk = false
    ∧ (handleConn true ⟨false, 0, []⟩).countP Event.isShutdown = 1
    ∧ (handleConn true ⟨false, 0, []⟩).countP Event.isFree = 1 := by
  decide

/-- Claim C2, amended: for every connection the underlying stream is
closed exactly once, and the secure-session end operation (SSL_shutdown
and SSL_free) runs exactly once per created session object — that is,
exactly once per connection in TLS mode, whether or not the handshake
succeeded, and never in plain mode. -/
theorem c2_teardown_exactly_once (tls : Bool) (inp : ConnInput) :
    (handleConn tls inp).countP Event.isClose = 1
    ∧ (handleConn tls inp).countP Event.isShutdown = (if tls then 1 else 0)
    ∧ (handleConn tls inp).countP Event.isFree = (if tls then 1 else 0) := by
  rcases inp with ⟨hok, rb, rd⟩
  cases tls <;> cases hok <;> by_cases hb : rb > 0 <;>
    simp [handleConn, hb, List.countP_cons, Event.isClose, Event.isShutdown, Event.isFree]

/-- Claim C3: whenever a response is produced (the read returned more
than zero bytes, on a channel that is live, that is, the handshake
succeeded when TLS is on), the bytes written are exactly the status line
HTTP/1.1 200 OK, the Content-Type header, a Content-Length header whose
value is the exact length of the body, a blank line, and the body — for
every request buffer, hence for every method and target, including empty
or malformed request lines. -/
theorem c3_response_framing (tls : Bool) (inp : ConnInput)
    (hh : tls = true → inp.handshakeOk = true) (hb : inp.readBytes > 0) :
    writeData (handleConn tls inp) =
      ["HTTP/1.1 200 OK\r\nContent-Type: text/html\r\nContent-Length: " ++
        toString (htmlContent tls (parsedMethod inp.reqData) (parsedUrl inp.reqData)).length ++
        "\r\n\r\n" ++ htmlContent tls (parsedMethod inp.reqData) (parsedUrl inp.reqData)] := by
  cases tls with
  | false => simp [handleConn, writeData, httpResponse, hb]
  | true => simp [handleConn, writeData, httpResponse, hb, hh rfl]

/-- Witness for c3_response_framing at a concrete plain-mode request. -/
theorem c3_response_framing_witness :
    (1 : Int) > 0
    ∧ writeData (handleConn false ⟨true, 1, "GET /x HTTP/1.1".data⟩) =
      ["HTTP/1.1 200 OK\r\nContent-Type: text/html\r\nContent-Length: " ++
        toString (htmlContent false (parsedMethod ("GET /x HTTP/1.1".data))
          (parsedUrl ("GET /x HTTP/1.1".data))).length ++
        "\r\n\r\n" ++ htmlContent false (parsedMethod ("GET /x HTTP/1.1".data))
          (parsedUrl ("GET /x HTTP/1.1".data))] :=
  ⟨by decide, c3_response_framing false ⟨true, 1, "GET /x HTTP/1.1".data⟩ (by decide) (by decide)⟩

/-- Claim C4: when the handshake fails in TLS mode, or the read returns
zero or a negative count, the connection produces no write event, and
the accept loop simply continues with the remaining accept outcomes. -/
theorem c4_recoverable_errors (tls : Bool) (inp : ConnInput) (rest : List (Option ConnInput))
    (h : (tls = true ∧ inp.handshakeOk = false) ∨ inp.readBytes ≤ 0) :
    (handleConn tls inp).countP Event.isWrite = 0
    ∧ runServer tls (some inp :: rest) =
        (handleConn tls inp :: (runServer tls rest).1, (runServer tls rest).2) := by
  refine ⟨?_, rfl⟩
  rcases h with ⟨ht, hok⟩ | hr
  · subst ht
    simp [handleConn, hok, List.countP_cons, Event.isWrite]
  · have hng : ¬ inp.readBytes > 0 := by omega
    cases tls <;> cases hok : inp.handshakeOk <;>
      simp [handleConn, hng, hok, List.countP_cons, Event.isWrite]

/-- Witness for c4_recoverable_errors at a failed TLS handshake. -/
theorem c4_recoverable_errors_witness :
    ((true = true ∧ (⟨false, 0, []⟩ : ConnInput).handshakeOk = false)
      ∨ (⟨false, 0, []⟩ : ConnInput).readBytes ≤ 0)
    ∧ (handleConn true ⟨false, 0, []⟩).countP Event.isWrite = 0
    ∧ runServer true [some ⟨false, 0, []⟩] =
        (handleConn true ⟨false, 0, []⟩ :: (runServer true []).1, (runServer true []).2) :=
  ⟨Or.inl ⟨rfl, rfl⟩,
   (c4_recoverable_errors true ⟨false, 0, []⟩ [] (Or.inl ⟨rfl, rfl⟩)).1,
   (c4_recoverable_errors true ⟨false, 0, []⟩ [] (Or.inl ⟨rfl, rfl⟩)).2⟩

/-- Claim C5: whenever a response is produced it echoes the parsed method
and url; the body is a fixed template — strings x, y, z independent of
the tokens — with the two tokens substituted verbatim and unescaped; a
whitespace-only (or empty) buffer parses to two empty fields, an input
whose remainder after the first token is all whitespace parses to an
empty url, and the response is generated in those cases all the same. -/
theorem c5_body_template_and_missing_tokens (tls : Bool) (inp : ConnInput)
    (hh : tls = true → inp.handshakeOk = true) (hb : inp.readBytes > 0) :
    writeData (handleConn tls inp) =
      [httpResponse tls (parsedMethod inp.reqData) (parsedUrl inp.reqData)]
    ∧ (∃ x y z : String, ∀ m u : String, htmlContent tls m u = x ++ m ++ y ++ u ++ z)
    ∧ ((∀ c ∈ cstr inp.reqData, isCSpace c = true) →
        parsedMethod inp.reqData = "" ∧ parsedUrl inp.reqData = "")
    ∧ ((∀ c ∈ rest1 (cstr inp.reqData), isCSpace c = true) →
        parsedUrl inp.reqData = "") := by
  refine ⟨?_, ?_, ?_, ?_⟩
  · cases tls with
    | false => simp [handleConn, writeData, hb]
    | true => simp [handleConn, writeData, hb, hh rfl]
  · cases tls with
    | false =>
      exact ⟨"<!DOCTYPE html><html><head><title>Tiny HTTP Server</title></head>" ++
        "<body><h1>Plain HTTP Server!</h1><p>Method: ", "</p><p>URL: ",
        "</p></body></html>", fun m u => rfl⟩
    | true =>
      exact ⟨"<!DOCTYPE html><html><head><title>Tiny SSL Server</title></head>" ++
        "<body><h1>Secure HTTPS Server!</h1><p>Method: ", "</p><p>URL: ",
        "</p></body></html>", fun m u => rfl⟩
  · intro hws
    have hnil : (cstr inp.reqData).dropWhile isCSpace = [] :=
      List.dropWhile_eq_nil_iff.mpr hws
    constructor
    · simp [parsedMethod, sscanfTokens, token1, hnil]
    · simp [parsedUrl, sscanfTokens, token2, token1, rest1, hnil]
  · intro hws
    have hnil : (rest1 (cstr inp.reqData)).dropWhile isCSpace = [] :=
      List.dropWhile_eq_nil_iff.mpr hws
    simp [parsedUrl, sscanfTokens, token2, token1, hnil]

/-- Witness for c5_body_template_and_missing_tokens at a whitespace-only
plain-mode request, which lacks both tokens. -/
theorem c5_body_template_and_missing_tokens_witness :
    (1 : Int) > 0
    ∧ (writeData (handleConn false ⟨true, 1, "  \r\n".data⟩) =
        [httpResponse false (parsedMethod ("  \r\n".data)) (parsedUrl ("  \r\n".data))]
      ∧ (∃ x y z : String, ∀ m u : String, htmlContent false m u = x ++ m ++ y ++ u ++ z)
      ∧ ((∀ c ∈ cstr ("  \r\n".data), isCSpace c = true) →
          parsedMethod ("  \r\n".data) = "" ∧ parsedUrl ("  \r\n".data) = "")
      ∧ ((∀ c ∈ rest1 (cstr ("  \r\n".data)), isCSpace c = true) →
          parsedUrl ("  \r\n".data) = "")) :=
  ⟨by decide, c5_body_template_and_missing_tokens false ⟨true, 1, "  \r\n".data⟩
    (by decide) (by decide)⟩

/-- Claim C6: each connection issues at most one read; the read happens
exactly when the channel is live (plain mode, or TLS mode with a
successful handshake), and its maximum byte count is always
BUFFER_SIZE - 1 = 4095, one byte of the 4096-byte buffer being reserved
for the NUL terminator.  No second read ever occurs. -/
theorem c6_single_bounded_read (tls : Bool) (inp : ConnInput) :
    readCaps (handleConn tls inp) =
      (if tls && !inp.handshakeOk then [] else [BUFFER_SIZE - 1])
    ∧ BUFFER_SIZE - 1 = 4095 := by
  refine ⟨?_, rfl⟩
  rcases inp with ⟨hok, rb, rd⟩
  cases tls <;> cases hok <;> by_cases hb : rb > 0 <;>
    simp [handleConn, readCaps, hb]

/-- Claim C7: after argument parsing, security mode is on exactly when no
argument after the program name equals "--no-tls"; with no such flag the
default of use_tls = 1 stands. -/
theorem c7_tls_on_iff_no_flag (args : List String) :
    parseUseTls args = true ↔ "--no-tls" ∉ args := by
  induction args with
  | nil => simp [parseUseTls, use_tls_default]
  | cons a rest ih =>
    by_cases ha : a = "--no-tls"
    · subst ha
      simp [parseUseTls]
    · simp [parseUseTls, ha, ih, Ne.symm ha]

/-- Claim C8: an accept failure makes the process exit at once with the
non-zero status EXIT_FAILURE; the connections accepted before it were
handled, and nothing after it is ever handled. -/
theorem c8_accept_failure_fatal (tls : Bool) (pre : List ConnInput)
    (rest : List (Option ConnInput)) :
    runServer tls (pre.map some ++ none :: rest) =
      (pre.map (handleConn tls), some EXIT_FAILURE)
    ∧ EXIT_FAILURE ≠ 0 := by
  refine ⟨?_, by decide⟩
  induction pre with
  | nil => rfl
  | cons b t ih => simp [runServer, ih]

/-- The trace of the connection at position n of a run is the pure
function handleConn of the mode and that connection's inputs alone. -/
theorem runServer_trace_at (tls : Bool) (a : ConnInput) :
    ∀ (pre : List ConnInput) (rest : List (Option ConnInput)),
      ((runServer tls (pre.map some ++ some a :: rest)).1)[pre.length]? =
        some (handleConn tls a)
  | [], rest => by simp [runServer]
  | b :: t, rest => by
    simp only [List.map_cons, List.cons_append, runServer, List.length_cons,
      List.getElem?_cons_succ]
    exact runServer_trace_at tls a t rest

/-- Claim C9: two connections of the same run, or of any two runs in the
same mode, that receive byte-identical inputs produce byte-identical
traces — both equal handleConn of the shared input, independent of their
position and of every other connection, so the responses written are
byte-identical and no per-connection state leaks into a later
response. -/
theorem c9_identical_requests_identical_responses (tls : Bool) (a : ConnInput)
    (p1 p2 : List ConnInput) (r1 r2 : List (Option ConnInput)) :
    ((runServer tls (p1.map some ++ some a :: r1)).1)[p1.length]? =
      some (handleConn tls a)
    ∧ ((runServer tls (p2.map some ++ some a :: r2)).1)[p2.length]? =
      some (handleConn tls a) :=
  ⟨runServer_trace_at tls a p1 r1, runServer_trace_at tls a p2 r2⟩

/-- Scanning stops at the first occurrence of "--no-tls": whatever
follows it, the result is false. -/
theorem parseUseTls_stops_at_first (post : List String) :
    ∀ p : List String, "--no-tls" ∉ p → parseUseTls (p ++ "--no-tls" :: post) = false
  | [], _ => by simp [parseUseTls]
  | a :: t, hp => by
    have ha : a ≠ "--no-tls" := fun h => hp (by simp [h])
    have ht : "--no-tls" ∉ t := fun hm => hp (List.mem_cons_of_mem a hm)
    simp [parseUseTls, ha, parseUseTls_stops_at_first post t ht]

/-- Claim C10: any argument other than the exact string "--no-tls" is
skipped with no effect on the parsed flag; once the first "--no-tls" is
reached the scan stops, so the result is false no matter what follows,
and the arguments after the first match never influence the outcome. -/
theorem c10_only_exact_flag_first_match (a : String) (args p post post2 : List String)
    (ha : a ≠ "--no-tls") (hp : "--no-tls" ∉ p) :
    parseUseTls (a :: args) = parseUseTls args
    ∧ parseUseTls (p ++ "--no-tls" :: post) = false
    ∧ parseUseTls (p ++ "--no-tls" :: post) = parseUseTls (p ++ "--no-tls" :: post2) := by
  refine ⟨by simp [parseUseTls, ha], parseUseTls_stops_at_first post p hp, ?_⟩
  rw [parseUseTls_stops_at_first post p hp, parseUseTls_stops_at_first post2 p hp]

/-- Witness for c10_only_exact_flag_first_match at concrete arguments. -/
theorem c10_only_exact_flag_first_match_witness :
    ("--verbose" : String) ≠ "--no-tls"
    ∧ ("--no-tls" : String) ∉ (["-p"] : List String)
    ∧ (parseUseTls ["--verbose", "x"] = parseUseTls ["x"]
      ∧ parseUseTls (["-p"] ++ "--no-tls" :: ["y"]) = false
      ∧ parseUseTls (["-p"] ++ "--no-tls" :: ["y"]) =
          parseUseTls (["-p"] ++ "--no-tls" :: [])) :=
  ⟨by decide, by decide,
   c10_only_exact_flag_first_match "--verbose" ["x"] ["-p"] ["y"] [] (by decide) (by decide)⟩

end TinyServer
